import Mathlib

/-!
Shallow embedding of the request-handling logic of `src/server.js`, a
retrieval-augmented chat service.  The external collaborators (embedding
API, vector store, generation API) are modelled as oracles supplying the
outcomes the remote calls would return; the local orchestration code is
translated directly.  Vector components are modelled as `Int`: no claim
performs arithmetic on them, only lengths and identity matter.
-/

deriving instance DecidableEq for Except

namespace MedicalChatbot

/-- A JavaScript metadata value as it occurs in Pinecone match metadata:
a string or a number (integral in all inputs of interest). -/
inductive JVal where
  | s (v : String)
  | n (v : Int)
deriving DecidableEq, Repr

/-- JavaScript truthiness for the modelled values: the empty string and
the number 0 are falsy, everything else is truthy. -/
def JVal.truthy : JVal → Bool
  | .s v => v ≠ ""
  | .n v => v ≠ 0

/-- JavaScript string coercion, as performed by a template literal. -/
def JVal.display : JVal → String
  | .s v => v
  | .n v => toString v

/-- JavaScript `a || b` on an optional metadata value: `undefined` and
falsy values select the fallback `b`. -/
def jsOr (a : Option JVal) (b : JVal) : JVal :=
  match a with
  | some v => if v.truthy then v else b
  | none => b

/-- The metadata mapping of one Pinecone search match, restricted to the
fields the code reads: `text`, `source`, `page`.  `none` models a field
that is absent (`undefined` in JavaScript). -/
structure Metadata where
  text : Option String
  source : Option JVal
  page : Option JVal
deriving DecidableEq, Repr

/-- One search match returned by `index.query`; the code only reads
`match.metadata`. -/
structure SearchMatch where
  metadata : Metadata
deriving DecidableEq, Repr

/-- `src/server.js` lines 90-93:
`searchResponse.matches.map(match => match.metadata.text)
   .filter(text => text !== undefined).join("\n\n---\n\n")`.
`filterMap id` is exactly map-then-drop-undefined. -/
def contexts (ms : List SearchMatch) : String :=
  String.intercalate "\n\n---\n\n"
    ((ms.map (fun m => m.metadata.text)).filterMap id)

/-- The page fragment of the fallback citation, `src/server.js` line 125:
the template piece `${m.metadata.page || "?"}`. -/
def pageStr (page : Option JVal) : String :=
  (jsOr page (.s "?")).display

/-- One citation value, `src/server.js` line 125:
`m.metadata.source || \x60Medical Manual P.${m.metadata.page || "?"}\x60`.
The JavaScript expression yields the raw `source` value when truthy,
otherwise the template string. -/
def citationVal (m : Metadata) : JVal :=
  jsOr m.source (.s ("Medical Manual P." ++ pageStr m.page))

/-- `src/server.js` line 125: the citations array maps over ALL entries
of the search response, `searchResponse.matches.map(m => ...)`. -/
def citations (ms : List SearchMatch) : List JVal :=
  ms.map (fun m => citationVal m.metadata)

/-- The search results whose metadata has a defined `text` field: the
spec calls these the retained ones (the context filter keeps exactly
these). -/
def textDefinedMatches (ms : List SearchMatch) : List SearchMatch :=
  ms.filter (fun m => m.metadata.text.isSome)

/-- The prompt built at `src/server.js` line 110. -/
def mkPrompt (contextBlock message : String) : String :=
  "Context from medical records:\n" ++ contextBlock ++
    "\n\nUser Question: " ++ message

/-- The JSON body the embedding client sends, `src/server.js` lines 46-51:
`{ content: { parts: [{ text }] }, output_dimensionality: 3072 }`. -/
structure EmbedRequestBody where
  contentText : String
  output_dimensionality : Nat
deriving DecidableEq, Repr

/-- `src/server.js` lines 46-51: the request body built for a given text.
The literal in the source is 3072 (the doc comment above it in the source
claims it forces 768 dimensions). -/
def buildEmbedRequestBody (text : String) : EmbedRequestBody :=
  { contentText := text, output_dimensionality := 3072 }

/-- The dimensionality of the deployed Pinecone index, stated in the
source doc comment on `generateEmbedding` (768). -/
def pineconeDim : Nat := 768

/-- The outcome of one `fetch` of the embedding endpoint, as the code
observes it after `response.json()`:
either a parsed JSON body carrying an optional `embedding.values` array
and (when that is absent) the string `JSON.stringify(data.error || data)`,
or a network-level error thrown by `fetch` itself. -/
inductive FetchOutcome where
  | ok (values : Option (List Int)) (errorBody : String)
  | netError (msg : String)
deriving DecidableEq, Repr

/-- `src/server.js` lines 38-63, `generateEmbedding`, acting on the
outcome of its single `fetch`: return `data.embedding.values` when
present, otherwise throw the prediction error; a `fetch` failure is
logged and rethrown unchanged by the `catch` block. -/
def generateEmbedding (r : FetchOutcome) : Except String (List Int) :=
  match r with
  | .ok (some vs) _ => .ok vs
  | .ok none eb => .error ("Google API Prediction Error: " ++ eb)
  | .netError m => .error m

/-- Instrumented run of `generateEmbedding` against a stream of fetch
outcomes (one outcome per attempt the code would make): the result, the
number of remote attempts performed, and the list of backoff delays (in
seconds) slept between attempts.  The function in `src/server.js` has no
retry loop and no delay: it performs exactly one fetch, consuming only
the head of the stream.  An empty stream models a fetch that never
returns and is treated as a network failure. -/
def generateEmbeddingRun (stream : List FetchOutcome) :
    Except String (List Int) × Nat × List Nat :=
  match stream with
  | [] => (.error "fetch failed", 1, [])
  | r :: _ => (generateEmbedding r, 1, [])

/-- The result component of `generateEmbeddingRun`: what the chat
handler receives from the embedding step. -/
def generateEmbeddingCall (stream : List FetchOutcome) :
    Except String (List Int) :=
  (generateEmbeddingRun stream).1

/-- The external collaborators of one request: the embedding fetch
outcomes, the vector store (a function of the query vector and topK),
and the generation model (a function of the prompt). -/
structure Env where
  embed : List FetchOutcome
  search : List Int → Nat → Except String (List SearchMatch)
  generate : String → Except String String

/-- The JSON body of one HTTP response of the service, status included.
Fields the response omits are `none`. -/
structure ChatResponse where
  status : Nat
  answer : Option String
  citations : Option (List JVal)
  error : Option String
  details : Option String
deriving DecidableEq, Repr

/-- Which downstream calls a request performed, and the prompt handed to
the generation model when that call happened. -/
structure Trace where
  handlerReached : Bool
  embedCalled : Bool
  searchCalled : Bool
  generateCalled : Bool
  generatePrompt : Option String
deriving DecidableEq, Repr

/-- The 400 response of `src/server.js` line 74. -/
def messageRequired : ChatResponse :=
  { status := 400, answer := none, citations := none
    error := some "Message is required", details := none }

/-- The 500 response of `src/server.js` lines 130-134: fixed error text
plus the raw downstream error message as `details`. -/
def serverError (e : String) : ChatResponse :=
  { status := 500, answer := none, citations := none
    error := some "An error occurred while processing your request."
    details := some e }

/-- The body of `POST /chat`, `src/server.js` lines 71-135, given a
parsed body whose `message` field is `message` (`none` when absent).
`if (!message)` rejects both an absent and an empty message before any
remote call; afterwards embed, search (topK 5), assemble and generate
run strictly in sequence, the `catch` mapping any thrown error to 500. -/
def handleChat (env : Env) (message : Option String) :
    ChatResponse × Trace :=
  match message with
  | none => (messageRequired, ⟨true, false, false, false, none⟩)
  | some m =>
    if m = "" then (messageRequired, ⟨true, false, false, false, none⟩)
    else
      match generateEmbeddingCall env.embed with
      | .error e => (serverError e, ⟨true, true, false, false, none⟩)
      | .ok queryVector =>
        match env.search queryVector 5 with
        | .error e => (serverError e, ⟨true, true, true, false, none⟩)
        | .ok ms =>
          let prompt := mkPrompt (contexts ms) m
          match env.generate prompt with
          | .error e => (serverError e, ⟨true, true, true, true, some prompt⟩)
          | .ok text =>
            ({ status := 200, answer := some text
               citations := some (citations ms)
               error := none, details := none },
             ⟨true, true, true, true, some prompt⟩)

/-- The parse result of the request body: Express `express.json()`
either fails on malformed JSON (raising a `SyntaxError` with status 400
that the error middleware of `src/server.js` lines 12-18 intercepts) or
yields a body whose `message` field the handler destructures. -/
inductive BodyParse where
  | malformed
  | parsed (message : Option String)
deriving DecidableEq, Repr

/-- The service as seen per request: the JSON-parsing middleware and the
error middleware (`src/server.js` lines 9-18) run before the route, so a
malformed body is answered with the fixed 400 body and the chat handler
is never reached; otherwise the handler runs. -/
def serve (env : Env) (body : BodyParse) : ChatResponse × Trace :=
  match body with
  | .malformed =>
    ({ status := 400, answer := none, citations := none
       error := some "Invalid JSON format. Please check your request body."
       details := none },
     ⟨false, false, false, false, none⟩)
  | .parsed message => handleChat env message

/-- The context block as claim C6 words it: the texts of the matches
whose metadata contains a NON-EMPTY text field, kept in order and joined
with the separator. -/
def contextsSpecC6 (ms : List SearchMatch) : String :=
  String.intercalate "\n\n---\n\n"
    ((ms.filter (fun m => m.metadata.text.getD "" ≠ "")).map
      (fun m => m.metadata.text.getD ""))

/-- The citation as claim C7 words it: the source field whenever it is
present, else the page template, with "?" only when page is absent. -/
def citationSpecC7 (m : Metadata) : JVal :=
  match m.source with
  | some sv => sv
  | none => .s ("Medical Manual P." ++
      (match m.page with
       | some pv => pv.display
       | none => "?"))

/-- The page part of the fallback citation as the amended claim C7 words
it: the page value when present and truthy, "?" when absent or falsy. -/
def pageTemplate : Option JVal → String
  | some pv =>
    if pv.truthy then "Medical Manual P." ++ pv.display
    else "Medical Manual P.?"
  | none => "Medical Manual P.?"

/-- The citation as the amended claim C7 words it: the source value when
present and truthy, otherwise the page template. -/
def citationAmendedC7 (m : Metadata) : JVal :=
  match m.source with
  | some sv => if sv.truthy then sv else .s (pageTemplate m.page)
  | none => .s (pageTemplate m.page)

/-- A concrete environment whose remote services all fail, used by
witnesses that never reach them. -/
def envNoApi : Env :=
  { embed := [], search := fun _ _ => .error "down"
    generate := fun _ => .error "down" }

/-- A search match without a text field but with a page. -/
def cexMatchNoText : SearchMatch := ⟨⟨none, none, some (.n 5)⟩⟩

/-- Two matches, the second carrying an empty-string text field. -/
def cexEmptyTextMs : List SearchMatch :=
  [⟨⟨some "A", none, none⟩⟩, ⟨⟨some "", none, none⟩⟩]

/-- Metadata with a present but empty source and a page. -/
def cexEmptySource : Metadata := ⟨none, some (.s ""), some (.n 9)⟩

/-- A stringified rate-limit error payload as the remote would return. -/
def rateLimitBody : String := "429 Too Many Requests quota exceeded"

/-- One fixed successful embedding vector. -/
def okVec : List Int := [1, 2, 3]

/-- Two rate-limited fetch outcomes followed by a successful one: the
scenario of claim C2. -/
def c2Stream : List FetchOutcome :=
  [.ok none rateLimitBody, .ok none rateLimitBody, .ok (some okVec) ""]

/-- C3: the claim (and the doc comment in the source) say the embedding
request asks for the dimensionality of the vector store, 768; the code
sends 3072.  Evaluated at the input "test". -/
theorem C3_dimensionality_bug :
    (buildEmbedRequestBody "test").output_dimensionality = 3072 ∧
    (buildEmbedRequestBody "test").output_dimensionality ≠ pineconeDim := by
  decide

/-- C4: a request whose body lacks a message field or whose message is
the empty string is answered HTTP 400 with error "Message is required",
and no downstream call (embedding, search or generation) is performed. -/
theorem C4_message_required (env : Env) (message : Option String)
    (h : message = none ∨ message = some "") :
    (serve env (.parsed message)).1 = messageRequired ∧
    (serve env (.parsed message)).2.embedCalled = false ∧
    (serve env (.parsed message)).2.searchCalled = false ∧
    (serve env (.parsed message)).2.generateCalled = false := by
  rcases h with h | h <;> subst h <;> exact ⟨rfl, rfl, rfl, rfl⟩

/-- Witness for C4: the concrete no-message request against a concrete
environment. -/
theorem C4_message_required_witness :
    (serve envNoApi (.parsed none)).1 = messageRequired ∧
    (serve envNoApi (.parsed none)).2.embedCalled = false ∧
    (serve envNoApi (.parsed none)).2.searchCalled = false ∧
    (serve envNoApi (.parsed none)).2.generateCalled = false :=
  C4_message_required envNoApi none (Or.inl rfl)

/-- C9: a malformed JSON body is answered with HTTP 400 and a body whose
only field is the fixed error sentence; the chat handler is never
reached and no downstream call happens. -/
theorem C9_malformed_json (env : Env) :
    (serve env .malformed).1 =
      { status := 400, answer := none, citations := none
        error := some "Invalid JSON format. Please check your request body."
        details := none } ∧
    (serve env .malformed).2 = ⟨false, false, false, false, none⟩ :=
  ⟨rfl, rfl⟩

/-- C10: citation formatting treats falsy metadata values as absent: an
empty-string source falls through to the page-based format, and a page
of 0 or of the empty string yields the citation "Medical Manual P.?". -/
theorem C10_falsy_metadata :
    citationVal ⟨none, some (.s ""), some (.n 7)⟩ =
      .s "Medical Manual P.7" ∧
    citationVal ⟨none, none, some (.n 0)⟩ = .s "Medical Manual P.?" ∧
    citationVal ⟨none, none, some (.s "")⟩ = .s "Medical Manual P.?" := by
  decide

/-- Helper: the page fragment the code builds equals the amended page
template, collapsing the append with "?" into the literal. -/
theorem pagePart_eq (pg : Option JVal) :
    "Medical Manual P." ++ pageStr pg = pageTemplate pg := by
  rcases pg with _ | pv
  · rfl
  · by_cases h : pv.truthy = true <;>
      simp [pageStr, pageTemplate, jsOr, h, JVal.display]

/-- C1 fails on the code: a match without a text field is dropped from
the context block but still receives a citation, so a successful
response can return one citation while zero matches have a defined text
field. -/
theorem C1_counterexample :
    (serve ⟨[.ok (some [1]) ""], fun _ _ => .ok [cexMatchNoText],
            fun _ => .ok "ans"⟩ (.parsed (some "q"))).1.status = 200 ∧
    (serve ⟨[.ok (some [1]) ""], fun _ _ => .ok [cexMatchNoText],
            fun _ => .ok "ans"⟩ (.parsed (some "q"))).1.citations =
      some (citations [cexMatchNoText]) ∧
    ¬ (citations [cexMatchNoText]).length =
        (textDefinedMatches [cexMatchNoText]).length := by
  decide

/-- C1 amended: for every successful response, the citations list is the
map over ALL search matches, so its length equals the total number of
matches, not the number of text-defined ones. -/
theorem C1_amended (stream : List FetchOutcome)
    (sfn : List Int → Nat → Except String (List SearchMatch))
    (gfn : String → Except String String) (msg : String) (v : List Int)
    (ms : List SearchMatch) (ans : String) (hmsg : ¬ msg = "")
    (hembed : generateEmbeddingCall stream = .ok v)
    (hsearch : sfn v 5 = .ok ms)
    (hgen : gfn (mkPrompt (contexts ms) msg) = .ok ans) :
    (serve ⟨stream, sfn, gfn⟩ (.parsed (some msg))).1.status = 200 ∧
    (serve ⟨stream, sfn, gfn⟩ (.parsed (some msg))).1.citations =
      some (citations ms) ∧
    (citations ms).length = ms.length := by
  refine ⟨?_, ?_, ?_⟩ <;>
    simp [serve, handleChat, hmsg, hembed, hsearch, hgen, citations]

/-- Witness for C1 amended: one text-carrying match and concrete
services. -/
theorem C1_amended_witness :
    (serve ⟨[.ok (some okVec) ""],
            fun _ _ => .ok [⟨⟨some "T1", some (.s "Src A"), none⟩⟩],
            fun _ => .ok "ans"⟩ (.parsed (some "q"))).1.status = 200 ∧
    (serve ⟨[.ok (some okVec) ""],
            fun _ _ => .ok [⟨⟨some "T1", some (.s "Src A"), none⟩⟩],
            fun _ => .ok "ans"⟩ (.parsed (some "q"))).1.citations =
      some (citations [⟨⟨some "T1", some (.s "Src A"), none⟩⟩]) ∧
    (citations [⟨⟨some "T1", some (.s "Src A"), none⟩⟩]).length =
      ([⟨⟨some "T1", some (.s "Src A"), none⟩⟩] :
        List SearchMatch).length :=
  C1_amended [.ok (some okVec) ""] _ _ "q" okVec
    [⟨⟨some "T1", some (.s "Src A"), none⟩⟩] "ans"
    (by decide) rfl rfl rfl

/-- C2 fails on the code: generateEmbedding has no retry loop, so with
two rate-limit errors queued before a success it performs exactly one
attempt, sleeps no delay, and propagates the rate-limit error instead of
returning the successful vector. -/
theorem C2_counterexample :
    (generateEmbeddingRun c2Stream).2.1 = 1 ∧
    ¬ (generateEmbeddingRun c2Stream).2.1 = 3 ∧
    (generateEmbeddingRun c2Stream).2.2 = ([] : List Nat) ∧
    (generateEmbeddingRun c2Stream).1 =
      .error ("Google API Prediction Error: " ++ rateLimitBody) ∧
    ¬ (generateEmbeddingRun c2Stream).1 = .ok okVec := by
  decide

/-- C2 amended: no retry exists; an error on the first attempt, rate
limit included, propagates immediately after exactly one remote attempt
with no backoff delays, whatever later attempts would have returned, and
the request is answered HTTP 500 carrying that error as details. -/
theorem C2_amended (rest : List FetchOutcome)
    (sfn : List Int → Nat → Except String (List SearchMatch))
    (gfn : String → Except String String) (msg eb : String)
    (hmsg : ¬ msg = "") :
    (generateEmbeddingRun (.ok none eb :: rest)).2.1 = 1 ∧
    (generateEmbeddingRun (.ok none eb :: rest)).2.2 = ([] : List Nat) ∧
    (serve ⟨.ok none eb :: rest, sfn, gfn⟩ (.parsed (some msg))).1 =
      serverError ("Google API Prediction Error: " ++ eb) := by
  refine ⟨rfl, rfl, ?_⟩
  simp [serve, handleChat, hmsg, generateEmbeddingCall,
    generateEmbeddingRun, generateEmbedding]

/-- Witness for C2 amended at the concrete rate-limit payload. -/
theorem C2_amended_witness :
    (generateEmbeddingRun
      (.ok none rateLimitBody :: [.ok (some okVec) ""])).2.1 = 1 ∧
    (generateEmbeddingRun
      (.ok none rateLimitBody :: [.ok (some okVec) ""])).2.2 =
      ([] : List Nat) ∧
    (serve ⟨.ok none rateLimitBody :: [.ok (some okVec) ""],
            fun _ _ => .error "down", fun _ => .error "down"⟩
      (.parsed (some "test"))).1 =
      serverError ("Google API Prediction Error: " ++ rateLimitBody) :=
  C2_amended [.ok (some okVec) ""] _ _ "test" rateLimitBody (by decide)

/-- C5: with zero search matches the context block and the citations
list are empty, the generation call still occurs on that empty context,
and the response is HTTP 200 with the generated answer. -/
theorem C5_zero_matches (stream : List FetchOutcome)
    (sfn : List Int → Nat → Except String (List SearchMatch))
    (gfn : String → Except String String) (msg : String) (v : List Int)
    (ans : String) (hmsg : ¬ msg = "")
    (hembed : generateEmbeddingCall stream = .ok v)
    (hsearch : sfn v 5 = .ok [])
    (hgen : gfn (mkPrompt "" msg) = .ok ans) :
    (serve ⟨stream, sfn, gfn⟩ (.parsed (some msg))).1 =
      { status := 200, answer := some ans, citations := some []
        error := none, details := none } ∧
    (serve ⟨stream, sfn, gfn⟩ (.parsed (some msg))).2.generateCalled =
      true ∧
    (serve ⟨stream, sfn, gfn⟩ (.parsed (some msg))).2.generatePrompt =
      some (mkPrompt "" msg) := by
  have hctx : contexts [] = "" := rfl
  refine ⟨?_, ?_, ?_⟩ <;>
    simp [serve, handleChat, hmsg, hembed, hsearch, hctx, hgen,
      citations]

/-- Witness for C5: concrete services returning an empty match list. -/
theorem C5_zero_matches_witness :
    (serve ⟨[.ok (some okVec) ""], fun _ _ => .ok [],
            fun _ => .ok "fallback"⟩ (.parsed (some "q"))).1 =
      { status := 200, answer := some "fallback", citations := some []
        error := none, details := none } ∧
    (serve ⟨[.ok (some okVec) ""], fun _ _ => .ok [],
            fun _ => .ok "fallback"⟩
      (.parsed (some "q"))).2.generateCalled = true ∧
    (serve ⟨[.ok (some okVec) ""], fun _ _ => .ok [],
            fun _ => .ok "fallback"⟩
      (.parsed (some "q"))).2.generatePrompt =
      some (mkPrompt "" "q") :=
  C5_zero_matches [.ok (some okVec) ""] _ _ "q" okVec "fallback"
    (by decide) rfl rfl rfl

/-- C6 fails on the code: the filter keeps any DEFINED text field, the
empty string included, so an empty text contributes an empty entry
between separators instead of nothing. -/
theorem C6_counterexample :
    contexts cexEmptyTextMs = "A\n\n---\n\n" ∧
    contextsSpecC6 cexEmptyTextMs = "A" ∧
    ¬ contexts cexEmptyTextMs = contextsSpecC6 cexEmptyTextMs := by
  decide

/-- C6 amended: the context block is the texts of exactly the matches
whose text field is defined (an empty string is kept and contributes an
empty entry), in search order, joined with the separator. -/
theorem C6_amended (ms : List SearchMatch) :
    contexts ms = String.intercalate "\n\n---\n\n"
      ((textDefinedMatches ms).map (fun m => m.metadata.text.getD "")) := by
  unfold contexts textDefinedMatches
  congr 1
  induction ms with
  | nil => rfl
  | cons m rest ih =>
    cases h : m.metadata.text <;>
      simp [List.filterMap_cons, List.filter_cons, h, ih]

/-- C7 fails on the code: a present but empty source field is not used
as the citation; the JavaScript or-expression falls through to the page
format. -/
theorem C7_counterexample :
    citationVal cexEmptySource = .s "Medical Manual P.9" ∧
    citationSpecC7 cexEmptySource = .s "" ∧
    ¬ citationVal cexEmptySource = citationSpecC7 cexEmptySource := by
  decide

/-- C7 amended: the citation equals the source value when that field is
present AND truthy (non-empty string, non-zero number); otherwise it is
the page template, with "?" when the page is absent or falsy. -/
theorem C7_amended (m : Metadata) :
    citationVal m = citationAmendedC7 m := by
  rcases m with ⟨t, src, pg⟩
  rcases src with _ | sv <;>
    simp only [citationVal, citationAmendedC7, jsOr, pagePart_eq]

/-- C8: if the embedding call fails, no search call and no generation
call occurs, and the response is HTTP 500 with the fixed error message
and the raw failure text as details. -/
theorem C8_embed_failure (stream : List FetchOutcome)
    (sfn : List Int → Nat → Except String (List SearchMatch))
    (gfn : String → Except String String) (msg e : String)
    (hmsg : ¬ msg = "")
    (hembed : generateEmbeddingCall stream = .error e) :
    (serve ⟨stream, sfn, gfn⟩ (.parsed (some msg))).1 = serverError e ∧
    (serve ⟨stream, sfn, gfn⟩ (.parsed (some msg))).2.searchCalled =
      false ∧
    (serve ⟨stream, sfn, gfn⟩ (.parsed (some msg))).2.generateCalled =
      false := by
  refine ⟨?_, ?_, ?_⟩ <;> simp [serve, handleChat, hmsg, hembed]

/-- Witness for C8: a network failure on the single fetch. -/
theorem C8_embed_failure_witness :
    (serve ⟨[.netError "socket hang up"], fun _ _ => .error "down",
            fun _ => .error "down"⟩ (.parsed (some "q"))).1 =
      serverError "socket hang up" ∧
    (serve ⟨[.netError "socket hang up"], fun _ _ => .error "down",
            fun _ => .error "down"⟩
      (.parsed (some "q"))).2.searchCalled = false ∧
    (serve ⟨[.netError "socket hang up"], fun _ _ => .error "down",
            fun _ => .error "down"⟩
      (.parsed (some "q"))).2.generateCalled = false :=
  C8_embed_failure [.netError "socket hang up"] _ _ "q"
    "socket hang up" (by decide) rfl

end MedicalChatbot
